import Mathlib

/-!
Verification of the HMS-Data-Analysis cleaning and insight pipeline
(`backend/main.py`) against its natural-language specification.

Shallow embedding conventions:
* a pandas cell is `Option String` (`none` = missing value / NaN);
* a pandas numeric cell after coercion is `Option ℚ` (`none` = NaN / NaT,
  rational numbers stand for Python floats — none of the verified
  properties depends on binary rounding);
* a DataFrame is a list of rows plus one presence flag per optional
  column (a flag models whether the raw CSV header contained a column
  aliased, after whitespace-stripping and renaming, to that logical
  column);
* fallible code returns `Except String`, mirroring the propagation of
  Python exceptions to the single `except` handler of `get_insights`.

Character-level helpers re-implement, over `List Char`, exactly the
ASCII behaviour of the Python string operations used by the source
(`str.strip`, `str.upper`, `in`, `re.search` of `\d+(\.\d+)?`,
`float()` coercion, `str.split`).
-/

attribute [local semireducible] Rat.mul Rat.inv Rat.add Rat.sub Rat.ofScientific

/-- ASCII whitespace, as stripped by Python `str.strip()` on this data. -/
def isWs (c : Char) : Bool := c == ' ' || c == '\t' || c == '\n' || c == '\r'

/-- Python `str.strip()` on the character list of a token. -/
def trimChars (l : List Char) : List Char :=
  ((l.dropWhile isWs).reverse.dropWhile isWs).reverse

/-- Python `str.upper()` on one ASCII character. -/
def upperChar (c : Char) : Char :=
  if 'a' ≤ c && c ≤ 'z' then Char.ofNat (c.toNat - 32) else c

/-- Value of a list of decimal digit characters. -/
def digitsToNat (l : List Char) : Nat :=
  l.foldl (fun n c => 10 * n + (c.toNat - '0'.toNat)) 0

/-- Split a character list into its longest leading digit run and the rest. -/
def takeDigits : List Char → List Char × List Char
  | [] => ([], [])
  | c :: rest =>
    if c.isDigit then
      let p := takeDigits rest
      (c :: p.1, p.2)
    else ([], c :: rest)

/-- First match of the regex `\d+(\.\d+)?` in a character list, as a
rational number (`re.search(r"(\d+(\.\d+)?)", s)` in `parse_age`). -/
def extractNumAux : List Char → Option ℚ
  | [] => none
  | c :: rest =>
    if c.isDigit then
      let p := takeDigits (c :: rest)
      let intPart : ℚ := (digitsToNat p.1 : ℚ)
      match p.2 with
      | '.' :: r2 =>
        let q := takeDigits r2
        if q.1.isEmpty then some intPart
        else some (intPart + (digitsToNat q.1 : ℚ) / ((10 : ℚ) ^ q.1.length))
      | _ => some intPart
    else extractNumAux rest

/-- First numeric substring matching `\d+(\.\d+)?` of a string. -/
def extractNumber (s : String) : Option ℚ := extractNumAux s.data

/-- Uppercased stripped token, as a string (`str(x).strip().upper()`). -/
def stripUpper (s : String) : String := ⟨(trimChars s.data).map upperChar⟩

/-- The function `parse_age` from `backend/main.py` (lines 68-89): `None`/empty → `none`;
otherwise strip, uppercase, extract the first `\d+(\.\d+)?` substring
(`none` when absent); divide by 12 when the token contains `M` but not
`Y`. -/
def parse_age (c : Option String) : Option ℚ :=
  match c with
  | none => none
  | some s =>
    if trimChars s.data = [] then none
    else
      let u := stripUpper s
      match extractNumber u with
      | none => none
      | some v =>
        some (if u.data.contains 'M' && !(u.data.contains 'Y') then v / 12 else v)

/-- C1: characterisation of `parse_age`, following the specification
sentence by sentence: missing/empty token → `none`; otherwise the token
is uppercased and the first `\d+(\.\d+)?` substring is extracted (no
match → `none`); a token containing `M` and not `Y` is months, divided
by 12; every other token — including one containing both `M` and `Y` —
is years, returned unchanged. -/
theorem C1_parse_age_spec (s : String) (v : ℚ) :
    parse_age none = none ∧
    (trimChars s.data = [] → parse_age (some s) = none) ∧
    (extractNumber (stripUpper s) = none → parse_age (some s) = none) ∧
    (extractNumber (stripUpper s) = some v →
      parse_age (some s) =
        some (if (stripUpper s).data.contains 'M' && !((stripUpper s).data.contains 'Y')
              then v / 12 else v)) := by
  refine ⟨rfl, ?_, ?_, ?_⟩
  · intro h
    simp [parse_age, h]
  · intro h
    by_cases ht : trimChars s.data = []
    · simp [parse_age, ht]
    · simp [parse_age, ht, h]
  · intro h
    have ht : trimChars s.data ≠ [] := by
      intro he
      have hsu : stripUpper s = ⟨[]⟩ := by
        unfold stripUpper
        rw [he]
        rfl
      rw [hsu] at h
      simp [extractNumber, extractNumAux] at h
    simp [parse_age, ht, h]

/-- C1 witness: the characterisation evaluated on concrete tokens, one
per branch (blank, no digits, months, combined months+years). -/
theorem C1_witness :
    parse_age (some "   ") = none ∧
    parse_age (some "abc") = none ∧
    parse_age (some "6M") = some (1/2) ∧
    parse_age (some "1Y6M") = some 1 := by
  refine ⟨(C1_parse_age_spec "   " 0).2.1 (by decide),
          (C1_parse_age_spec "abc" 0).2.2.1 (by decide), ?_, ?_⟩
  · have h := (C1_parse_age_spec "6M" 6).2.2.2 (by decide)
    rw [h]
    decide
  · have h := (C1_parse_age_spec "1Y6M" 1).2.2.2 (by decide)
    rw [h]
    decide

/-! ## Numeric and datetime coercion (`pd.to_numeric`, `pd.to_datetime`) -/

/-- Decimal float literal (digits, optional fractional part), whole input
consumed; the unsigned part of the coercion `pd.to_numeric(errors="coerce")`
performs on a string cell (exponents are not exercised by this data). -/
def parseUnsignedFloat (l : List Char) : Option ℚ :=
  let p := takeDigits l
  match p.2 with
  | [] => if p.1.isEmpty then none else some (digitsToNat p.1 : ℚ)
  | '.' :: r2 =>
    let q := takeDigits r2
    if q.2.isEmpty then
      if p.1.isEmpty && q.1.isEmpty then none
      else some ((digitsToNat p.1 : ℚ) + (digitsToNat q.1 : ℚ) / ((10 : ℚ) ^ q.1.length))
    else none
  | _ => none

/-- Model of `pd.to_numeric(errors="coerce")` on one cell: strip, optional
sign, decimal literal; missing or unparsable → `none` (NaN). -/
def toNumeric (c : Option String) : Option ℚ :=
  match c with
  | none => none
  | some s =>
    match trimChars s.data with
    | '-' :: rest => (parseUnsignedFloat rest).map (fun q => -q)
    | '+' :: rest => parseUnsignedFloat rest
    | l => parseUnsignedFloat l

/-- A parsed timestamp (pandas `Timestamp`); `Option DT` models a
datetime cell, `none` being `NaT`. -/
structure DT where
  year : Nat
  month : Nat
  day : Nat
  hour : Nat
  minute : Nat
deriving DecidableEq, Repr

/-- Split a character list at every separator matched by `p`
(Python `str.split(sep)`, empty segments preserved). -/
def splitBy (p : Char → Bool) : List Char → List Char → List (List Char)
  | [], acc => [acc.reverse]
  | c :: rest, acc => if p c then acc.reverse :: splitBy p rest [] else splitBy p rest (c :: acc)

/-- Value of a nonempty all-digit character list, else `none`. -/
def natOf (l : List Char) : Option Nat :=
  if l.isEmpty || !(l.all Char.isDigit) then none else some (digitsToNat l)

/-- Length of a Gregorian month. -/
def daysInMonth (y m : Nat) : Nat :=
  if m = 2 then (if (y % 4 = 0 && y % 100 ≠ 0) || y % 400 = 0 then 29 else 28)
  else if m = 4 || m = 6 || m = 9 || m = 11 then 30 else 31

/-- Two-digit years follow the POSIX pivot pandas uses: 69-99 → 19xx,
0-68 → 20xx. -/
def fixYear (y digitCount : Nat) : Nat :=
  if digitCount ≤ 2 then (if 69 ≤ y then 1900 + y else 2000 + y) else y

/-- Day-first calendar date `DD-MM-YY[YY]` (also `/` separated), with
range validation: the date part of `pd.to_datetime(dayfirst=True)` on
the formats this data uses. -/
def parseDateChars (l : List Char) : Option (Nat × Nat × Nat) :=
  match splitBy (fun c => c == '-' || c == '/') l [] with
  | [d, m, y] =>
    match natOf d, natOf m, natOf y with
    | some dv, some mv, some yv =>
      let yr := fixYear yv y.length
      if 1 ≤ mv && mv ≤ 12 && 1 ≤ dv && dv ≤ daysInMonth yr mv then some (dv, mv, yr)
      else none
    | _, _, _ => none
  | _ => none

/-- Clock time `HH:MM` with range validation. -/
def parseTimeChars (l : List Char) : Option (Nat × Nat) :=
  match splitBy (fun c => c == ':') l [] with
  | [h, m] =>
    match natOf h, natOf m with
    | some hv, some mv => if hv ≤ 23 && mv ≤ 59 then some (hv, mv) else none
    | _, _ => none
  | _ => none

/-- Model of `pd.to_datetime(dayfirst=True, errors="coerce")` on one cell,
restricted to the day-first formats present in the data
(`DD-MM-YY HH:MM`, optionally date-only): unparsable → `none` (NaT). -/
def parseDT (c : Option String) : Option DT :=
  match c with
  | none => none
  | some s =>
    match (splitBy (fun c => c == ' ') (trimChars s.data) []).filter (fun seg => !seg.isEmpty) with
    | [d] => (parseDateChars d).map (fun t => ⟨t.2.2, t.2.1, t.1, 0, 0⟩)
    | [d, tm] =>
      match parseDateChars d, parseTimeChars tm with
      | some t, some hm => some ⟨t.2.2, t.2.1, t.1, hm.1, hm.2⟩
      | _, _ => none
    | _ => none

/-! ## The raw and cleaned tables -/

/-- One row of the source CSV after header-whitespace stripping and
alias renaming (`column_mapping`): the cell of each logical column, `none`
meaning an empty/NaN cell.  Cells of columns whose header is absent
from the table (see `RawTable`) are ignored. -/
structure RawRow where
  doctor_name : Option String
  department : Option String
  branch : Option String
  gender : Option String
  payment_mode : Option String
  status : Option String
  patient_name : Option String
  patient_id : Option String
  age_raw : Option String
  revenue : Option String
  base_total : Option String
  advance_paid : Option String
  visit_datetime : Option String
deriving DecidableEq, Repr

/-- The raw table: one presence flag per logical column (whether the
stripped CSV header contains a column aliased to it), plus the rows. -/
structure RawTable where
  hasDoctor : Bool
  hasDept : Bool
  hasBranch : Bool
  hasGender : Bool
  hasPayMode : Bool
  hasStatus : Bool
  hasPatientName : Bool
  hasPatientId : Bool
  hasAge : Bool
  hasRevenue : Bool
  hasBaseTotal : Bool
  hasAdvance : Bool
  hasVisit : Bool
  rows : List RawRow
deriving DecidableEq, Repr

/-- One row after the cleaning: cells stay nullable exactly as
pandas cells do, so the no-null invariants are real statements.  For
`base_total`/`advance_paid`, `none` also stands for an absent column
(the code only creates them when the source column exists). -/
structure CleanRow where
  doctor_name : Option String
  department : Option String
  branch : Option String
  gender : Option String
  payment_mode : Option String
  status : Option String
  patient_name : Option String
  patient_id : Option String
  age : Option ℚ
  revenue : Option ℚ
  base_total : Option ℚ
  advance_paid : Option ℚ
  visit : Option DT
deriving DecidableEq, Repr

/-- The cleaned table; the flags record which optional columns exist in
the cleaned DataFrame (accessing a missing one raises `KeyError`). -/
structure CleanTable where
  hasVisit : Bool
  hasPatientId : Bool
  hasBaseTotal : Bool
  hasAdvance : Bool
  rows : List CleanRow
deriving DecidableEq, Repr

def defaultRawRow : RawRow :=
  ⟨none, none, none, none, none, none, none, none, none, none, none, none, none⟩

def defaultCleanRow : CleanRow :=
  ⟨none, none, none, none, none, none, none, none, none, none, none, none, none⟩

/-- Insert into a sorted list, in front of the first element it is
`le`-related to (so the overall sort is stable). -/
def insertLe (le : α → α → Bool) (a : α) : List α → List α
  | [] => [a]
  | b :: bs => if le a b then a :: b :: bs else b :: insertLe le a bs

/-- Stable insertion sort; the stable sorts pandas uses (`sort_values`,
`value_counts` ordering) are modelled with it. -/
def insertionSort (le : α → α → Bool) : List α → List α
  | [] => []
  | a :: as => insertLe le a (insertionSort le as)

theorem insertLe_perm (le : α → α → Bool) (a : α) (l : List α) :
    (insertLe le a l).Perm (a :: l) := by
  induction l with
  | nil => exact List.Perm.refl _
  | cons b bs ih =>
    by_cases h : le a b = true
    · rw [show insertLe le a (b :: bs) = a :: b :: bs from by simp [insertLe, h]]
    · rw [show insertLe le a (b :: bs) = b :: insertLe le a bs from by simp [insertLe, h]]
      exact (List.Perm.cons b ih).trans (List.Perm.swap a b bs)

theorem insertionSort_perm (le : α → α → Bool) (l : List α) :
    (insertionSort le l).Perm l := by
  induction l with
  | nil => exact List.Perm.refl _
  | cons a as ih =>
    exact ((insertLe_perm le a (insertionSort le as)).trans (List.Perm.cons a ih))

theorem length_insertionSort (le : α → α → Bool) (l : List α) :
    (insertionSort le l).length = l.length :=
  (insertionSort_perm le l).length_eq

/-- Pandas `Series.median()`: sort, middle element, or mean of the two middle
elements for an even count; `none` on an empty series. -/
def median (l : List ℚ) : Option ℚ :=
  let s := insertionSort (fun a b => decide (a ≤ b)) l
  let n := s.length
  if n = 0 then none
  else if n % 2 = 1 then some (s.getD (n / 2) 0)
  else some ((s.getD (n / 2 - 1) 0 + s.getD (n / 2) 0) / 2)

/-- The fill value for unparsable ages: the median of the successfully
parsed ages (`df["age"].median()`), or 0 when nothing parsed. -/
def medianDefault (t : RawTable) : ℚ :=
  (median ((t.rows.map (fun r => parse_age r.age_raw)).filterMap id)).getD 0

/-- A raw cell of a possibly-absent column: `none` when the column is
not in the header. -/
def colOr (has : Bool) (c : Option String) : Option String := if has then c else none

/-- Pandas `Series.fillna(d)` on a string cell. -/
def fillna (c : Option String) (d : String) : Option String := some (c.getD d)

/-- Per-row part of the cleaning (steps 3-6 of `load_and_clean_data`):
parse the datetime, parse/fill the age with the table-wide median
default, coerce the numeric columns with `fillna(0)`, fill the seven
categorical columns with their sentinel defaults. -/
def cleanRow (t : RawTable) (raw : RawRow) : CleanRow :=
  { doctor_name := fillna (colOr t.hasDoctor raw.doctor_name) "Unknown Doctor"
    department := fillna (colOr t.hasDept raw.department) "General"
    branch := fillna (colOr t.hasBranch raw.branch) "Unknown Branch"
    gender := fillna (colOr t.hasGender raw.gender) "Unknown"
    payment_mode := fillna (colOr t.hasPayMode raw.payment_mode) "Unknown"
    status := fillna (colOr t.hasStatus raw.status) "Unknown"
    patient_name := fillna (colOr t.hasPatientName raw.patient_name) "Unknown"
    patient_id := colOr t.hasPatientId raw.patient_id
    age := if t.hasAge then some ((parse_age raw.age_raw).getD (medianDefault t)) else some 0
    revenue := some (if t.hasRevenue then (toNumeric raw.revenue).getD 0 else 0)
    base_total := if t.hasBaseTotal then some ((toNumeric raw.base_total).getD 0) else none
    advance_paid := if t.hasAdvance then some ((toNumeric raw.advance_paid).getD 0) else none
    visit := if t.hasVisit then parseDT raw.visit_datetime else none }

/-- The function `load_and_clean_data` from `backend/main.py` (lines 92-171), after
the file read: header strip + rename are reflected in the `RawTable`
flags, then dates are parsed, age is parsed and median-filled, numeric
columns are coerced with default 0, and the seven categorical columns
are filled with sentinel defaults. -/
def load_and_clean_data (t : RawTable) : CleanTable :=
  { hasVisit := t.hasVisit
    hasPatientId := t.hasPatientId
    hasBaseTotal := t.hasBaseTotal
    hasAdvance := t.hasAdvance
    rows := t.rows.map (cleanRow t) }

/-- C2: in a table with an age column, a row whose age token fails to
parse receives the table-wide fill value `medianDefault` — the median
of all successfully parsed ages — and that fill value is 0 when no age
in the table parses. -/
theorem C2_median_fill (t : RawTable) (hAge : t.hasAge = true) (i : ℕ)
    (hi : i < t.rows.length)
    (hfail : parse_age ((t.rows.getD i defaultRawRow).age_raw) = none) :
    ((load_and_clean_data t).rows.getD i defaultCleanRow).age = some (medianDefault t) ∧
    ((t.rows.map (fun r => parse_age r.age_raw)).filterMap id = [] → medianDefault t = 0) := by
  constructor
  · rw [show (load_and_clean_data t).rows = t.rows.map (cleanRow t) from rfl]
    rw [List.getD_eq_getElem?_getD, List.getElem?_map, List.getElem?_eq_getElem hi,
        Option.map_some', Option.getD_some]
    have hfail' : parse_age (t.rows[i].age_raw) = none := by
      rw [List.getD_eq_getElem?_getD, List.getElem?_eq_getElem hi, Option.getD_some] at hfail
      exact hfail
    simp [cleanRow, hAge, hfail']
  · intro h
    unfold medianDefault
    rw [h]
    rfl

/-- The 3-record scenario of the specification: ages `"10"`, `""`,
`"24Y"`; the blank row receives the median 17 of {10, 24}. -/
def T2 : RawTable :=
  { hasDoctor := false, hasDept := false, hasBranch := false, hasGender := false
    hasPayMode := false, hasStatus := false, hasPatientName := false, hasPatientId := false
    hasAge := true, hasRevenue := false, hasBaseTotal := false, hasAdvance := false
    hasVisit := false
    rows := [{ defaultRawRow with age_raw := some "10" },
             { defaultRawRow with age_raw := some "" },
             { defaultRawRow with age_raw := some "24Y" }] }

/-- C2 witness: the theorem applied to the 3-record
scenario; the normalized ages come out as `[10, 17, 24]`. -/
theorem C2_witness :
    T2.hasAge = true ∧
    parse_age ((T2.rows.getD 1 defaultRawRow).age_raw) = none ∧
    ((load_and_clean_data T2).rows.getD 1 defaultCleanRow).age = some (medianDefault T2) ∧
    medianDefault T2 = 17 ∧
    (load_and_clean_data T2).rows.map (fun r => r.age) = [some 10, some 17, some 24] :=
  ⟨rfl, by decide, (C2_median_fill T2 rfl 1 (by decide) (by decide)).1, by decide, by decide⟩

/-- The C3 invariant of a cleaned row: the seven categorical cells are
non-null (each the source value or its sentinel default), and the
numeric cells are non-NaN — `age` and `revenue` always, `base_total`
and `advance_paid` whenever their column exists. -/
def cleanInvariant (t : RawTable) (r : CleanRow) : Prop :=
  r.doctor_name.isSome = true ∧ r.department.isSome = true ∧ r.branch.isSome = true ∧
  r.gender.isSome = true ∧ r.payment_mode.isSome = true ∧ r.status.isSome = true ∧
  r.patient_name.isSome = true ∧
  r.age.isSome = true ∧ r.revenue.isSome = true ∧
  (t.hasBaseTotal = true → r.base_total.isSome = true) ∧
  (t.hasAdvance = true → r.advance_paid.isSome = true) ∧
  ∃ raw ∈ t.rows,
    (r.doctor_name = raw.doctor_name ∨ r.doctor_name = some "Unknown Doctor") ∧
    (r.department = raw.department ∨ r.department = some "General") ∧
    (r.branch = raw.branch ∨ r.branch = some "Unknown Branch") ∧
    (r.gender = raw.gender ∨ r.gender = some "Unknown") ∧
    (r.payment_mode = raw.payment_mode ∨ r.payment_mode = some "Unknown") ∧
    (r.status = raw.status ∨ r.status = some "Unknown") ∧
    (r.patient_name = raw.patient_name ∨ r.patient_name = some "Unknown")

/-- Filling over a possibly-absent column returns the source cell or
the sentinel default. -/
theorem fillna_cases (b : Bool) (c : Option String) (d : String) :
    fillna (colOr b c) d = c ∨ fillna (colOr b c) d = some d := by
  cases b <;> cases c <;> simp [fillna, colOr]

/-- C3: every row produced by the cleaning satisfies the no-null
invariant. -/
theorem C3_no_nulls (t : RawTable) (r : CleanRow)
    (hr : r ∈ (load_and_clean_data t).rows) : cleanInvariant t r := by
  obtain ⟨raw, hraw, rfl⟩ := List.mem_map.1 hr
  refine ⟨rfl, rfl, rfl, rfl, rfl, rfl, rfl, ?_, rfl, ?_, ?_,
          raw, hraw, ?_, ?_, ?_, ?_, ?_, ?_, ?_⟩
  · cases h : t.hasAge <;> simp [cleanRow, h]
  · intro h
    simp [cleanRow, h]
  · intro h
    simp [cleanRow, h]
  · exact fillna_cases t.hasDoctor raw.doctor_name _
  · exact fillna_cases t.hasDept raw.department _
  · exact fillna_cases t.hasBranch raw.branch _
  · exact fillna_cases t.hasGender raw.gender _
  · exact fillna_cases t.hasPayMode raw.payment_mode _
  · exact fillna_cases t.hasStatus raw.status _
  · exact fillna_cases t.hasPatientName raw.patient_name _

/-- A one-row table exercising both a present categorical cell and a
missing one (`department` is null and gets its default). -/
def raw3 : RawRow :=
  { doctor_name := some "Dr A", department := none, branch := some "B1"
    gender := some "M", payment_mode := some "Cash", status := some "Open"
    patient_name := some "Bob", patient_id := some "P1", age_raw := some "10"
    revenue := some "5", base_total := some "1", advance_paid := some "2"
    visit_datetime := some "02-12-25 17:46" }

def T3 : RawTable :=
  { hasDoctor := true, hasDept := true, hasBranch := true, hasGender := true
    hasPayMode := true, hasStatus := true, hasPatientName := true, hasPatientId := true
    hasAge := true, hasRevenue := true, hasBaseTotal := true, hasAdvance := true
    hasVisit := true, rows := [raw3] }

/-- C3 witness: the invariant holds of the concrete cleaned row of `T3`. -/
theorem C3_witness :
    cleanRow T3 raw3 ∈ (load_and_clean_data T3).rows ∧ cleanInvariant T3 (cleanRow T3 raw3) :=
  ⟨by decide, C3_no_nulls T3 (cleanRow T3 raw3) (by decide)⟩

/-- A one-row table whose revenue token is the negative number `-5`. -/
def T9 : RawTable :=
  { hasDoctor := false, hasDept := false, hasBranch := false, hasGender := false
    hasPayMode := false, hasStatus := false, hasPatientName := false, hasPatientId := false
    hasAge := false, hasRevenue := true, hasBaseTotal := false, hasAdvance := false
    hasVisit := false, rows := [{ defaultRawRow with revenue := some "-5" }] }

/-- C9 counterexample: the claim says the cleaned `revenue` is
non-negative, but the coercion keeps a negative parsed value as-is:
the cleaned revenue of `T9` is -5 < 0. -/
theorem C9_cex :
    ((load_and_clean_data T9).rows.getD 0 defaultCleanRow).revenue = some (-5) ∧
    (-5 : ℚ) < 0 := by
  constructor
  · decide
  · decide

/-- C9 amended: the cleaned `revenue` is exactly the float coercion of
the source cell with default 0 when the cell is missing or unparsable
or the column absent — its sign is not constrained. -/
theorem C9_coerced (t : RawTable) (i : ℕ) (hi : i < t.rows.length) :
    ((load_and_clean_data t).rows.getD i defaultCleanRow).revenue =
      some (if t.hasRevenue = true then (toNumeric ((t.rows.getD i defaultRawRow).revenue)).getD 0
            else 0) := by
  rw [show (load_and_clean_data t).rows = t.rows.map (cleanRow t) from rfl]
  rw [List.getD_eq_getElem?_getD, List.getElem?_map, List.getElem?_eq_getElem hi,
      Option.map_some', Option.getD_some]
  rw [List.getD_eq_getElem?_getD, List.getElem?_eq_getElem hi, Option.getD_some]
  cases h : t.hasRevenue <;> simp [cleanRow, h]

/-- C9 witness: the amended statement applied to `T9` (whose revenue
token parses to the kept negative value). -/
theorem C9_witness :
    0 < T9.rows.length ∧
    ((load_and_clean_data T9).rows.getD 0 defaultCleanRow).revenue =
      some (if T9.hasRevenue = true then (toNumeric ((T9.rows.getD 0 defaultRawRow).revenue)).getD 0
            else 0) :=
  ⟨by decide, C9_coerced T9 0 (by decide)⟩

/-! ## Binned distributions (insights 5 and 13) -/

/-- Model of `pd.cut(df["age"], bins=[0,18,30,50,70,150], right=False)`
on one cell: left-closed right-open intervals; values below 0 or at or
above the top edge 150 (and NaN) fall in no bucket. -/
def ageGroup (c : Option ℚ) : Option String :=
  match c with
  | none => none
  | some v =>
    if v < 0 then none
    else if v < 18 then some "0-18"
    else if v < 30 then some "19-30"
    else if v < 50 then some "31-50"
    else if v < 70 then some "51-70"
    else if v < 150 then some "70+"
    else none

/-- Model of `pd.cut(df["revenue"], bins=[0,500,1000,2000,5000,10000],
right=False)` on one cell. -/
def revGroup (c : Option ℚ) : Option String :=
  match c with
  | none => none
  | some v =>
    if v < 0 then none
    else if v < 500 then some "0-500"
    else if v < 1000 then some "501-1000"
    else if v < 2000 then some "1001-2000"
    else if v < 5000 then some "2001-5000"
    else if v < 10000 then some "5000+"
    else none

def ageLabels : List String := ["0-18", "19-30", "31-50", "51-70", "70+"]

def revLabels : List String := ["0-500", "501-1000", "1001-2000", "2001-5000", "5000+"]

/-- Pandas `df["age_group"].value_counts().sort_index()` on the categorical
column: all five categories, in category (ascending bucket) order, each
with its count. -/
def ageDistribution (rows : List CleanRow) : List (String × ℚ) :=
  ageLabels.map (fun lab => (lab, ((rows.map (fun r => ageGroup r.age)).count (some lab) : ℚ)))

/-- Pandas `df["rev_group"].value_counts().sort_index()`. -/
def revDistribution (rows : List CleanRow) : List (String × ℚ) :=
  revLabels.map (fun lab => (lab, ((rows.map (fun r => revGroup r.revenue)).count (some lab) : ℚ)))

/-- A one-row table whose age is 150 and revenue 10000 — both at the
top bin edges `pd.cut` was given. -/
def T6 : RawTable :=
  { hasDoctor := false, hasDept := false, hasBranch := false, hasGender := false
    hasPayMode := false, hasStatus := false, hasPatientName := false, hasPatientId := false
    hasAge := true, hasRevenue := true, hasBaseTotal := false, hasAdvance := false
    hasVisit := false
    rows := [{ defaultRawRow with age_raw := some "150", revenue := some "10000" }] }

/-- C6 counterexample: the claim says that every record with age in
[70,∞) is counted in the `70+` bucket and every record with revenue in
[5000,∞) in the `5000+` bucket, but `pd.cut` is called with finite top
edges 150 and 10000: the record of `T6` (age 150 ≥ 70, revenue
10000 ≥ 5000) falls in no bucket of either distribution, whose counts
all stay 0. -/
theorem C6_cex :
    ((load_and_clean_data T6).rows.getD 0 defaultCleanRow).age = some 150 ∧
    ((load_and_clean_data T6).rows.getD 0 defaultCleanRow).revenue = some 10000 ∧
    (70 : ℚ) ≤ 150 ∧ (5000 : ℚ) ≤ 10000 ∧
    ageDistribution (load_and_clean_data T6).rows =
      [("0-18", 0), ("19-30", 0), ("31-50", 0), ("51-70", 0), ("70+", 0)] ∧
    revDistribution (load_and_clean_data T6).rows =
      [("0-500", 0), ("501-1000", 0), ("1001-2000", 0), ("2001-5000", 0), ("5000+", 0)] := by
  decide

set_option maxHeartbeats 1600000 in
/-- C6 amended: both distributions always emit their five buckets in
fixed ascending bucket order, and bucket assignment follows the
half-open left-closed ranges — but the top buckets are bounded,
`70+` = [70,150) and `5000+` = [5000,10000); values below 0 or at or
beyond the top edge are assigned to no bucket. -/
theorem C6_binning (rows : List CleanRow) :
    (ageDistribution rows).map Prod.fst = ageLabels ∧
    (revDistribution rows).map Prod.fst = revLabels ∧
    (∀ v : ℚ, ageGroup (some v) =
      (if 0 ≤ v ∧ v < 18 then some "0-18"
       else if 18 ≤ v ∧ v < 30 then some "19-30"
       else if 30 ≤ v ∧ v < 50 then some "31-50"
       else if 50 ≤ v ∧ v < 70 then some "51-70"
       else if 70 ≤ v ∧ v < 150 then some "70+" else none)) ∧
    (∀ v : ℚ, revGroup (some v) =
      (if 0 ≤ v ∧ v < 500 then some "0-500"
       else if 500 ≤ v ∧ v < 1000 then some "501-1000"
       else if 1000 ≤ v ∧ v < 2000 then some "1001-2000"
       else if 2000 ≤ v ∧ v < 5000 then some "2001-5000"
       else if 5000 ≤ v ∧ v < 10000 then some "5000+" else none)) := by
  refine ⟨rfl, rfl, ?_, ?_⟩
  · intro v
    simp only [ageGroup]
    split_ifs <;>
      first
        | rfl
        | (exfalso
           simp only [not_and_or, not_lt, not_le] at *
           first
             | (casesm* _ ∨ _ <;> linarith)
             | linarith)
  · intro v
    simp only [revGroup]
    split_ifs <;>
      first
        | rfl
        | (exfalso
           simp only [not_and_or, not_lt, not_le] at *
           first
             | (casesm* _ ∨ _ <;> linarith)
             | linarith)

/-! ## Aggregation helpers (the pandas operations `get_insights` uses) -/

/-- Distinct elements in first-occurrence order, skipping those already
seen (the hashtable order underlying `value_counts`/`nunique`). -/
def dedupSeen [DecidableEq α] (seen : List α) : List α → List α
  | [] => []
  | x :: xs => if x ∈ seen then dedupSeen seen xs else x :: dedupSeen (x :: seen) xs

def dedupFirst [DecidableEq α] (l : List α) : List α := dedupSeen [] l

/-- Lexicographic comparison of character lists (Python string `<=`). -/
def charListLe : List Char → List Char → Bool
  | [], _ => true
  | _ :: _, [] => false
  | a :: as, b :: bs => if a < b then true else if b < a then false else charListLe as bs

def strLe (a b : String) : Bool := charListLe a.data b.data

/-- Pandas `Series.value_counts()`: drop nulls, count each distinct value, sort
by count descending — stably, so ties keep first-occurrence order. -/
def value_counts (cells : List (Option String)) : List (String × ℚ) :=
  let present := cells.filterMap id
  insertionSort (fun a b => decide (b.2 ≤ a.2))
    ((dedupFirst present).map (fun k => (k, (present.count k : ℚ))))

/-- The `groupby` group keys: distinct non-null keys, sorted ascending
(`groupby(..., sort=True)`). -/
def groupKeysSorted (cells : List (Option String)) : List String :=
  insertionSort strLe (dedupFirst (cells.filterMap id))

/-- Pandas `df.groupby(key)[val].sum()`: per sorted group key, the sum of the
non-NaN values of the group. -/
def groupSum (rows : List CleanRow) (key : CleanRow → Option String)
    (val : CleanRow → Option ℚ) : List (String × ℚ) :=
  (groupKeysSorted (rows.map key)).map (fun k =>
    (k, ((rows.filter (fun r => decide (key r = some k))).filterMap val).sum))

/-- Pandas `df.groupby(key)[val].mean()` (every group here is nonempty with
non-NaN values, so the 0 guard is never taken). -/
def groupMean (rows : List CleanRow) (key : CleanRow → Option String)
    (val : CleanRow → Option ℚ) : List (String × ℚ) :=
  (groupKeysSorted (rows.map key)).map (fun k =>
    let vs := (rows.filter (fun r => decide (key r = some k))).filterMap val
    (k, if vs.length = 0 then 0 else vs.sum / (vs.length : ℚ)))

/-- Pandas `Series.sort_values(ascending=False)`, stable. -/
def sortValsDesc (l : List (String × ℚ)) : List (String × ℚ) :=
  insertionSort (fun a b => decide (b.2 ≤ a.2)) l

/-- Pandas `Series.sort_values()`, stable ascending. -/
def sortValsAsc (l : List (String × ℚ)) : List (String × ℚ) :=
  insertionSort (fun a b => decide (a.2 ≤ b.2)) l

/-- Pandas `Series.nunique()`: distinct non-null values. -/
def nunique (cells : List (Option String)) : Nat := (dedupFirst (cells.filterMap id)).length

/-- Pandas `Series.idxmax()`: the first index attaining the maximum value;
`ValueError` on an empty series. -/
def idxmaxE (l : List (String × ℚ)) : Except String String :=
  match l with
  | [] => Except.error "attempt to get argmax of an empty sequence"
  | x :: xs => Except.ok (xs.foldl (fun best p => if best.2 < p.2 then p else best) x).1

/-- Column access `df[name]`: the column when it exists, otherwise a `KeyError` that
propagates out of the insight computation. -/
def getColE (present : Bool) (v : List α) (colName : String) : Except String (List α) :=
  if present then Except.ok v else Except.error ("KeyError: " ++ colName)

/-- Days since 1970-01-01 of a Gregorian date (civil-calendar
conversion, truncated division as in its standard statement). -/
def daysFromCivil (y m d : Nat) : Int :=
  let yi : Int := (y : Int) - (if m ≤ 2 then 1 else 0)
  let era : Int := (if 0 ≤ yi then yi else yi - 399).tdiv 400
  let yoe : Int := yi - era * 400
  let mp : Int := ((m : Int) + 9).emod 12
  let doy : Int := (153 * mp + 2).tdiv 5 + (d : Int) - 1
  let doe : Int := yoe * 365 + yoe.tdiv 4 - yoe.tdiv 100 + doy
  era * 146097 + doe - 719468

/-- Pandas `Timestamp.day_name()` (1970-01-01 was a Thursday). -/
def dayName (dt : DT) : String :=
  ["Thursday", "Friday", "Saturday", "Sunday", "Monday", "Tuesday", "Wednesday"].getD
    ((daysFromCivil dt.year dt.month dt.day).emod 7).toNat ""

/-- Linear month index used for calendar resampling. -/
def monthIdx (dt : DT) : Nat := dt.year * 12 + (dt.month - 1)

def pad2 (n : Nat) : String := if n < 10 then "0" ++ toString n else toString n

/-- Label `strftime("%Y-%m")` of a month index. -/
def monthLabel (m : Nat) : String := toString (m / 12) ++ "-" ++ pad2 (m % 12 + 1)

/-- Hour label: the zero-padded hour followed by a colon and 00. -/
def hourLabel (h : Nat) : String := pad2 h ++ ":00"

def visitMonths (rows : List CleanRow) : List Nat :=
  rows.filterMap (fun r => r.visit.map monthIdx)

/-- The month buckets `resample("M")` generates: every calendar month
from the earliest to the latest non-NaT timestamp. -/
def monthSpan (rows : List CleanRow) : List Nat :=
  match (visitMonths rows).min?, (visitMonths rows).max? with
  | some lo, some hi => (List.range (hi + 1 - lo)).map (fun i => lo + i)
  | _, _ => []

/-- Pandas `df.set_index("visit_datetime").resample("M").size()` (NaT rows are
excluded by the datetime index). -/
def monthlyCounts (rows : List CleanRow) : List (String × ℚ) :=
  (monthSpan rows).map (fun m =>
    (monthLabel m, (rows.countP (fun r => decide (r.visit.map monthIdx = some m)) : ℚ)))

/-- Pandas `df.set_index("visit_datetime").resample("M")["revenue"].sum()`. -/
def monthlyRevenue (rows : List CleanRow) : List (String × ℚ) :=
  (monthSpan rows).map (fun m =>
    (monthLabel m,
      ((rows.filter (fun r => decide (r.visit.map monthIdx = some m))).filterMap
        (fun r => r.revenue)).sum))

def weekdayNames : List String :=
  ["Monday", "Tuesday", "Wednesday", "Thursday", "Friday", "Saturday", "Sunday"]

/-- Counts `value_counts().reindex(days_order).fillna(0)`: always the seven
weekday entries Monday→Sunday, zero for absent days. -/
def weekdayCounts (rows : List CleanRow) : List (String × ℚ) :=
  weekdayNames.map (fun d =>
    (d, (rows.countP (fun r => decide (r.visit.map dayName = some d)) : ℚ)))

/-- Pandas `df["hour"].value_counts().sort_index()`: distinct hours of the
non-NaT timestamps, ascending, with counts. -/
def hourCounts (rows : List CleanRow) : List (String × ℚ) :=
  let hs := rows.filterMap (fun r => r.visit.map (fun v => v.hour))
  (insertionSort (fun a b => decide (a ≤ b)) (dedupFirst hs)).map
    (fun h => (hourLabel h, (hs.count h : ℚ)))

/-- Insight 22: the row sums of the department×branch pivot.  Since the
cleaned `branch` cell is never null, the sum over the branch columns of
a department row is just the visit count of that department; labels are the
pivot index, i.e. the sorted distinct departments. -/
def deptBranchRowSums (rows : List CleanRow) : List (String × ℚ) :=
  (groupKeysSorted (rows.map (fun r => r.department))).map (fun k =>
    (k, (rows.countP (fun r => decide (r.department = some k)) : ℚ)))

/-- Comparison `df["age"] < x` on a nullable cell (NaN compares false). -/
def cellLt (c : Option ℚ) (x : ℚ) : Bool :=
  match c with
  | some v => decide (v < x)
  | none => false

/-- Comparison `df["age"] >= x` on a nullable cell (NaN compares false). -/
def cellGe (c : Option ℚ) (x : ℚ) : Bool :=
  match c with
  | some v => decide (x ≤ v)
  | none => false

def pediatricCount (rows : List CleanRow) : Nat := rows.countP (fun r => cellLt r.age 18)

def adultCount (rows : List CleanRow) : Nat := rows.countP (fun r => cellGe r.age 18)

/-- The two labelled entries of insight 23. -/
def pediatricPairs (rows : List CleanRow) : List (String × ℚ) :=
  [("Pediatric (<18)", (pediatricCount rows : ℚ)), ("Adult (18+)", (adultCount rows : ℚ))]

/-- Patients with more than one visit (`visit_counts[visit_counts > 1].count()`). -/
def repeatCount (cells : List (Option String)) : Nat :=
  (value_counts cells).countP (fun p => decide (1 < p.2))

/-- Patients with exactly one visit. -/
def singleCount (cells : List (Option String)) : Nat :=
  (value_counts cells).countP (fun p => decide (p.2 = 1))

/-- The two labelled entries of insight 15. -/
def retentionPairs (cells : List (Option String)) : List (String × ℚ) :=
  [("Repeat Patients", (repeatCount cells : ℚ)), ("One-time Patients", (singleCount cells : ℚ))]

/-- Python `round(x, 1)` (round-half-to-even on the first decimal). -/
def bankRound (x : ℚ) : ℤ :=
  let f := x.floor
  let r := x - (f : ℚ)
  if r < 1/2 then f else if 1/2 < r then f + 1 else if f % 2 = 0 then f else f + 1

def round1 (x : ℚ) : ℚ := (bankRound (x * 10) : ℚ) / 10

/-- The scalar of insight 24: `round(total/unique_doctors, 1)`, guarded to 0
when there are no doctors. -/
def avgPerDoc (rows : List CleanRow) : ℚ :=
  let uniq := nunique (rows.map (fun r => r.doctor_name))
  if 0 < uniq then round1 ((rows.length : ℚ) / (uniq : ℚ)) else 0

/-- Pandas `df.groupby("branch")["patient_id"].nunique().sort_values(ascending=False)`. -/
def uniquePatientsByBranch (rows : List CleanRow) : List (String × ℚ) :=
  sortValsDesc ((groupKeysSorted (rows.map (fun r => r.branch))).map (fun k =>
    (k, (nunique ((rows.filter (fun r => decide (r.branch = some k))).map
          (fun r => r.patient_id)) : ℚ))))

/-- One aggregation result: title, description, chart kind, and the
label/value columns of `chart_data`. -/
structure Insight where
  title : String
  description : String
  chart_type : String
  labels : List String
  values : List ℚ
deriving DecidableEq, Repr

/-- Package a list of label/value pairs as an `Insight` — the labels and
values of every insight are the two columns of one pandas series. -/
def mkIns (ti de ty : String) (pairs : List (String × ℚ)) : Insight :=
  ⟨ti, de, ty, pairs.map Prod.fst, pairs.map Prod.snd⟩

/-- The function `get_insights` from `backend/main.py` (lines 175-442): clean the
table, then build the fixed catalog of insights in source order.  The
`Except` failure points are exactly the uncaught exceptions of the source:
the unconditional `df["visit_datetime"]` access guarding insights
10/11/16/20, the `idxmax()` of the department counts (insight 18), and
the unconditional `df["patient_id"]` access of insight 25. -/
def get_insights (t : RawTable) : Except String (List Insight) :=
  let df := load_and_clean_data t
  let rows := df.rows
  let i1 := mkIns "Top 5 Busiest Doctors" "Doctors with the highest patient volume." "bar"
    ((value_counts (rows.map (fun r => r.doctor_name))).take 5)
  let i2 := mkIns "Patient Visits by Department"
    "Distribution of cases across different medical departments." "pie"
    (value_counts (rows.map (fun r => r.department)))
  let i3 := mkIns "Revenue by Department" "Total revenue generated by each department." "bar"
    (sortValsDesc (groupSum rows (fun r => r.department) (fun r => r.revenue)))
  let i4 := mkIns "Top 10 Doctors by Avg Revenue"
    "Doctors with the highest average revenue per visit." "bar"
    ((sortValsDesc (groupMean rows (fun r => r.doctor_name) (fun r => r.revenue))).take 10)
  let i5 := mkIns "Patient Age Group Distribution"
    "Demographic breakdown of patients by age groups." "bar" (ageDistribution rows)
  let i6 := mkIns "Patient Gender Distribution" "Split between Male and Female patients." "pie"
    (value_counts (rows.map (fun r => r.gender)))
  let i7 := mkIns "Visits by Branch (Location)"
    "Patient volume across different hospital branches." "bar"
    ((value_counts (rows.map (fun r => r.branch))).take 10)
  let i8 := mkIns "Revenue by Branch" "Total revenue generated by each branch." "bar"
    (sortValsDesc (groupSum rows (fun r => r.branch) (fun r => r.revenue)))
  let i9 := mkIns "Top Payment Modes" "Most common methods of payment." "bar"
    ((value_counts (rows.map (fun r => r.payment_mode))).take 5)
  (getColE df.hasVisit (rows.map (fun r => r.visit)) "visit_datetime").bind (fun visitCol =>
    let hasDT := visitCol.any (fun c => c.isSome)
    let i10s := if hasDT then
        [mkIns "Monthly Patient Visits Trend" "Trend of patient visits over time." "line"
          (monthlyCounts rows)]
      else []
    let i11s := if hasDT then
        [mkIns "Visits by Day of Week" "Patient volume distribution across the week." "bar"
          (weekdayCounts rows)]
      else []
    let i12 := mkIns "Appointment Status Distribution"
      "Breakdown of appointment statuses (e.g., Open, Closed)." "bar"
      ((value_counts (rows.map (fun r => r.status))).take 5)
    let i13 := mkIns "Revenue per Visit Distribution"
      "Distribution of revenue amounts collected per visit." "bar" (revDistribution rows)
    let i14 := mkIns "Zero-Payment Visits by Department"
      "Departments with the most free or unpaid visits." "bar"
      ((value_counts ((rows.filter (fun r => decide (r.revenue = some 0))).map
        (fun r => r.department))).take 10)
    let i15s := if df.hasPatientId then
        [mkIns "Patient Retention Rate"
          "Proportion of patients with repeat visits vs single visits." "pie"
          (retentionPairs (rows.map (fun r => r.patient_id)))]
      else []
    let i16s := if hasDT then
        [mkIns "Peak Visiting Hours" "Patient traffic throughout the day." "line"
          (hourCounts rows)]
      else []
    let i17 := mkIns "Average Patient Age by Department"
      "Average age of patients visiting each department." "bar"
      ((sortValsAsc (groupMean rows (fun r => r.department) (fun r => r.age))).map
        (fun p => (p.1, round1 p.2)))
    (idxmaxE (value_counts (rows.map (fun r => r.department)))).bind (fun topDept =>
      let i18 := mkIns ("Gender Distribution in " ++ topDept)
        ("Gender breakdown for the busiest department (" ++ topDept ++ ").") "pie"
        (value_counts ((rows.filter (fun r => decide (r.department = some topDept))).map
          (fun r => r.gender)))
      let i19 := mkIns ("Top Doctors in " ++ topDept)
        ("Busiest doctors in " ++ topDept ++ ".") "bar"
        ((value_counts ((rows.filter (fun r => decide (r.department = some topDept))).map
          (fun r => r.doctor_name))).take 5)
      let i20s := if hasDT then
          [mkIns "Monthly Revenue Trend" "Total revenue collected over time." "line"
            (monthlyRevenue rows)]
        else []
      let i21 := mkIns "Doctor Workload Distribution"
        "Distribution of patient load across all doctors." "bar"
        (value_counts (rows.map (fun r => r.doctor_name)))
      let i22 := mkIns "Department Activity by Branch"
        "Cross-tabulation of departments and branches." "bar" (deptBranchRowSums rows)
      let i23 := mkIns "Pediatric vs Adult Patients" "Ratio of patients under 18 vs adults." "pie"
        (pediatricPairs rows)
      let i24 := mkIns "Average Patients per Doctor"
        ("Each doctor sees approximately " ++ toString (avgPerDoc rows) ++
          " patients on average.") "bar"
        [("Avg Patients/Doctor", avgPerDoc rows)]
      (getColE df.hasPatientId (rows.map (fun r => r.patient_id)) "patient_id").bind (fun _ =>
        let i25 := mkIns "Unique Patients by Branch"
          "Number of unique patients visiting each branch." "bar" (uniquePatientsByBranch rows)
        Except.ok ([i1, i2, i3, i4, i5, i6, i7, i8, i9] ++ i10s ++ i11s ++ [i12, i13, i14]
          ++ i15s ++ i16s ++ [i17, i18, i19] ++ i20s ++ [i21, i22, i23, i24, i25]))))

/-! ## Facts about the cleaned table used by the insight claims -/

theorem clean_hasVisit (t : RawTable) : (load_and_clean_data t).hasVisit = t.hasVisit := rfl

theorem clean_hasPatientId (t : RawTable) :
    (load_and_clean_data t).hasPatientId = t.hasPatientId := rfl

theorem clean_rows (t : RawTable) :
    (load_and_clean_data t).rows = t.rows.map (cleanRow t) := rfl

theorem cleanRow_age_isSome (t : RawTable) (raw : RawRow) :
    (cleanRow t raw).age.isSome = true := by
  cases h : t.hasAge <;> simp [cleanRow, h]

theorem cleanRow_visit (t : RawTable) (raw : RawRow) :
    (cleanRow t raw).visit = if t.hasVisit = true then parseDT raw.visit_datetime else none := rfl

theorem cleanRow_department (t : RawTable) (raw : RawRow) :
    (cleanRow t raw).department = some ((colOr t.hasDept raw.department).getD "General") := rfl

/-- The `value_counts` of a column whose first cell is non-null is nonempty. -/
theorem value_counts_ne_nil (a : String) (cs : List (Option String)) :
    value_counts (some a :: cs) ≠ [] := by
  intro h
  have hlen := congrArg List.length h
  simp [value_counts, length_insertionSort, dedupFirst, dedupSeen] at hlen

/-- Elements produced by `dedupSeen` come from the input list. -/
theorem dedupSeen_subset [DecidableEq α] (seen l : List α) :
    ∀ x ∈ dedupSeen seen l, x ∈ l := by
  induction l generalizing seen with
  | nil => simp [dedupSeen]
  | cons a as ih =>
    intro x hx
    by_cases ha : a ∈ seen
    · simp only [dedupSeen, if_pos ha] at hx
      exact List.mem_cons_of_mem a (ih seen x hx)
    · simp only [dedupSeen, if_neg ha, List.mem_cons] at hx
      rcases hx with rfl | hx
      · exact List.mem_cons_self x as
      · exact List.mem_cons_of_mem a (ih (a :: seen) x hx)

/-- Labels and values of every packaged insight have equal length. -/
def chartOk (i : Insight) : Bool := i.labels.length == i.values.length

theorem mkIns_chartOk (ti de ty : String) (p : List (String × ℚ)) :
    chartOk (mkIns ti de ty p) = true := by
  simp [chartOk, mkIns]

theorem all_chartOk_len (L : List Insight) (h : L.all chartOk = true) :
    ∀ i ∈ L, i.labels.length = i.values.length := by
  intro i hi
  have := List.all_eq_true.1 h i hi
  simpa [chartOk] using this

/-- C4: whenever the insight computation succeeds, every produced
insight has chart labels and values of equal length. -/
theorem C4_chart_lengths (t : RawTable) (l : List Insight)
    (h : get_insights t = Except.ok l) :
    ∀ i ∈ l, i.labels.length = i.values.length := by
  unfold get_insights at h
  simp only [clean_hasVisit, clean_hasPatientId] at h
  cases hv : t.hasVisit with
  | false =>
    rw [hv] at h
    simp [getColE, Except.bind] at h
  | true =>
    rw [hv] at h
    simp only [getColE, Except.bind, reduceIte] at h
    cases him : idxmaxE (value_counts (List.map (fun r => r.department)
        (load_and_clean_data t).rows)) with
    | error e =>
      rw [him] at h
      simp [Except.bind] at h
    | ok d =>
      rw [him] at h
      simp only [Except.bind] at h
      cases hp : t.hasPatientId with
      | false =>
        simp only [hp] at h
        simp [Except.bind] at h
      | true =>
        simp only [hp, Except.bind, reduceIte, Except.ok.injEq] at h
        subst h
        apply all_chartOk_len
        cases hdt : (List.map (fun r => r.visit) (load_and_clean_data t).rows).any
            (fun c => c.isSome) <;>
          simp [hdt, List.all_append, List.all_cons, mkIns_chartOk]

def w4rowA : RawRow :=
  { doctor_name := some "Dr A", department := some "Cardio", branch := some "B1"
    gender := some "M", payment_mode := some "Cash", status := some "Open"
    patient_name := some "Bob", patient_id := some "P1", age_raw := some "10"
    revenue := some "5", base_total := some "5", advance_paid := some "0"
    visit_datetime := some "02-12-25 17:46" }

def w4rowB : RawRow :=
  { doctor_name := some "Dr B", department := some "Cardio", branch := some "B1"
    gender := some "F", payment_mode := some "Card", status := some "Closed"
    patient_name := some "Eve", patient_id := some "P1", age_raw := some "30Y"
    revenue := some "0", base_total := some "0", advance_paid := some "0"
    visit_datetime := some "15-01-26 09:05" }

/-- A two-row table with every expected column, on which the insight
computation succeeds and produces all 25 insights. -/
def W4 : RawTable :=
  { hasDoctor := true, hasDept := true, hasBranch := true, hasGender := true
    hasPayMode := true, hasStatus := true, hasPatientName := true, hasPatientId := true
    hasAge := true, hasRevenue := true, hasBaseTotal := true, hasAdvance := true
    hasVisit := true, rows := [w4rowA, w4rowB] }

def W4res : List Insight := (get_insights W4).toOption.getD []

/-- C4 witness: the insight computation succeeds on `W4` and the label
and value columns of every produced insight have equal length. -/
theorem C4_witness :
    get_insights W4 = Except.ok W4res ∧
    ∀ i ∈ W4res, i.labels.length = i.values.length :=
  ⟨by rfl, C4_chart_lengths W4 W4res (by rfl)⟩

/-- C8: on an empty table (zero data rows) the insight computation does
not return a list at all — the `idxmax()` of the empty department
counts (or, without a datetime column, the column access) raises, so
the claimed empty-or-minimal insight list never materialises. -/
theorem C8_empty_raises (t : RawTable) (h : t.rows = []) :
    (get_insights t).isOk = false := by
  unfold get_insights
  simp only [clean_hasVisit, clean_hasPatientId] at *
  cases hv : t.hasVisit with
  | false => simp [getColE, hv, Except.bind, Except.isOk, Except.toBool]
  | true =>
    simp [getColE, hv, h, clean_rows, value_counts, dedupFirst, dedupSeen, insertionSort,
      idxmaxE, Except.bind, Except.isOk, Except.toBool]

/-- The empty table with the full expected header. -/
def W8 : RawTable :=
  { hasDoctor := true, hasDept := true, hasBranch := true, hasGender := true
    hasPayMode := true, hasStatus := true, hasPatientName := true, hasPatientId := true
    hasAge := true, hasRevenue := true, hasBaseTotal := true, hasAdvance := true
    hasVisit := true, rows := [] }

/-- C8 witness: on the concrete empty table the computation yields the
`idxmax` error rather than an insight list. -/
theorem C8_witness :
    W8.rows = [] ∧ (get_insights W8).isOk = false ∧
    get_insights W8 = Except.error "attempt to get argmax of an empty sequence" :=
  ⟨rfl, C8_empty_raises W8 rfl, by rfl⟩

/-- C10: a table whose header has no column aliased to `visit_datetime`,
or none aliased to `patient_id`, makes the whole insight computation
fail: the cleaned frame only has these columns when the source does,
the datetime guard and the unique-patients-by-branch aggregation access
them unconditionally, and the resulting `KeyError` propagates, so no
partial insight list is returned. -/
theorem C10_missing_column (t : RawTable)
    (h : t.hasVisit = false ∨ t.hasPatientId = false) :
    (get_insights t).isOk = false := by
  unfold get_insights
  simp only [clean_hasVisit, clean_hasPatientId]
  rcases h with h | h
  · simp [getColE, h, Except.bind, Except.isOk, Except.toBool]
  · cases hv : t.hasVisit with
    | false => simp [getColE, hv, Except.bind, Except.isOk, Except.toBool]
    | true =>
      simp only [getColE, hv, Except.bind, reduceIte]
      cases him : idxmaxE (value_counts (List.map (fun r => r.department)
          (load_and_clean_data t).rows)) with
      | error e => simp [him, Except.bind, Except.isOk, Except.toBool]
      | ok d => simp [him, h, Except.bind, Except.isOk, Except.toBool]

/-- A one-row table with no visit-datetime column. -/
def W10 : RawTable :=
  { hasDoctor := true, hasDept := true, hasBranch := true, hasGender := true
    hasPayMode := true, hasStatus := true, hasPatientName := true, hasPatientId := true
    hasAge := true, hasRevenue := true, hasBaseTotal := true, hasAdvance := true
    hasVisit := false, rows := [w4rowA] }

/-- C10 witness: with the visit-datetime column absent the computation
fails as a whole. -/
theorem C10_witness :
    W10.hasVisit = false ∧ (get_insights W10).isOk = false :=
  ⟨rfl, C10_missing_column W10 (Or.inl rfl)⟩

/-- Two pointwise-complementary predicates split a list's length. -/
theorem countP_split (l : List α) (p q : α → Bool)
    (h : ∀ x ∈ l, p x = !(q x)) : l.countP p + l.countP q = l.length := by
  induction l with
  | nil => simp
  | cons a as ih =>
    have ha := h a (by simp)
    have ih' := ih (fun x hx => h x (by simp [hx]))
    cases hq : q a
    · rw [hq] at ha
      simp only [Bool.not_false] at ha
      rw [List.countP_cons_of_pos _ _ ha, List.countP_cons_of_neg _ _ (by simp [hq]),
        List.length_cons]
      omega
    · rw [hq] at ha
      simp only [Bool.not_true] at ha
      rw [List.countP_cons_of_neg _ _ (by simp [ha]), List.countP_cons_of_pos _ _ hq,
        List.length_cons]
      omega

/-- The repeat/one-time split of `value_counts` covers every distinct
non-null patient exactly once: each count is at least 1, and `> 1` and
`== 1` are complementary there. -/
theorem retention_partition (cells : List (Option String)) :
    repeatCount cells + singleCount cells = nunique cells := by
  unfold repeatCount singleCount
  simp only [value_counts]
  rw [(insertionSort_perm _ _).countP_eq, (insertionSort_perm _ _).countP_eq,
      List.countP_map, List.countP_map]
  have hsplit := countP_split (dedupFirst (cells.filterMap id))
      ((fun p => decide (1 < p.2)) ∘ (fun k => (k, ((cells.filterMap id).count k : ℚ))))
      ((fun p => decide (p.2 = 1)) ∘ (fun k => (k, ((cells.filterMap id).count k : ℚ))))
      ?_
  · rw [hsplit]
    rfl
  · intro k hk
    have hmem : k ∈ cells.filterMap id := dedupSeen_subset [] (cells.filterMap id) k hk
    have hpos : 0 < (cells.filterMap id).count k := List.count_pos_iff.2 hmem
    rcases eq_or_lt_of_le hpos with h1 | h1
    · have hc : (cells.filterMap id).count k = 1 := h1.symm
      simp [Function.comp, hc]
    · have hgt : (1 : ℚ) < ((cells.filterMap id).count k : ℚ) := by exact_mod_cast h1
      have hne : (((cells.filterMap id).count k : ℚ)) ≠ 1 := ne_of_gt hgt
      simp [Function.comp, hgt, hne]

/-- C7: each binary partition is exact — pediatric plus adult counts
equal the number of records with non-null age, which is every record;
repeat plus one-time patients equal the number of distinct non-null
patient identifiers; and both insights carry exactly two labelled
entries whose values sum to those totals. -/
theorem C7_binary_partitions (t : RawTable) :
    pediatricCount (load_and_clean_data t).rows + adultCount (load_and_clean_data t).rows
      = (load_and_clean_data t).rows.countP (fun r => r.age.isSome) ∧
    (load_and_clean_data t).rows.countP (fun r => r.age.isSome)
      = (load_and_clean_data t).rows.length ∧
    (pediatricPairs (load_and_clean_data t).rows).length = 2 ∧
    ((pediatricPairs (load_and_clean_data t).rows).map Prod.snd).sum
      = ((load_and_clean_data t).rows.length : ℚ) ∧
    (retentionPairs ((load_and_clean_data t).rows.map (fun r => r.patient_id))).length = 2 ∧
    repeatCount ((load_and_clean_data t).rows.map (fun r => r.patient_id))
      + singleCount ((load_and_clean_data t).rows.map (fun r => r.patient_id))
      = nunique ((load_and_clean_data t).rows.map (fun r => r.patient_id)) ∧
    ((retentionPairs ((load_and_clean_data t).rows.map (fun r => r.patient_id))).map
        Prod.snd).sum
      = (nunique ((load_and_clean_data t).rows.map (fun r => r.patient_id)) : ℚ) := by
  have hsome : ∀ r ∈ (load_and_clean_data t).rows, r.age.isSome = true := by
    intro r hr
    obtain ⟨raw, _, rfl⟩ := List.mem_map.1 hr
    exact cleanRow_age_isSome t raw
  have hlen : (load_and_clean_data t).rows.countP (fun r => r.age.isSome)
      = (load_and_clean_data t).rows.length :=
    List.countP_eq_length.2 hsome
  have hped : pediatricCount (load_and_clean_data t).rows
      + adultCount (load_and_clean_data t).rows = (load_and_clean_data t).rows.length := by
    unfold pediatricCount adultCount
    refine countP_split _ _ _ ?_
    intro r hr
    obtain ⟨v, hv⟩ := Option.isSome_iff_exists.1 (hsome r hr)
    rw [hv]
    simp only [cellLt, cellGe]
    rcases lt_or_ge v 18 with h | h
    · simp [h, not_le.2 h]
    · simp [not_lt.2 h, h]
  have hret := retention_partition ((load_and_clean_data t).rows.map (fun r => r.patient_id))
  refine ⟨by rw [hped, hlen], hlen, rfl, ?_, rfl, hret, ?_⟩
  · simp only [pediatricPairs, List.map_cons, List.map_nil, List.sum_cons, List.sum_nil,
      add_zero]
    rw [← Nat.cast_add, hped]
  · simp only [retentionPairs, List.map_cons, List.map_nil, List.sum_cons, List.sum_nil,
      add_zero]
    rw [← Nat.cast_add, hret]

/-- Titles of the four `visit_datetime`-dependent insights. -/
def dtTitles : List String :=
  ["Monthly Patient Visits Trend", "Visits by Day of Week", "Peak Visiting Hours",
   "Monthly Revenue Trend"]

/-- The fixed titles of the 19 statically-titled non-datetime insights
(insights 18 and 19 carry dynamic department-dependent titles). -/
def fixedOtherTitles : List String :=
  ["Top 5 Busiest Doctors", "Patient Visits by Department", "Revenue by Department",
   "Top 10 Doctors by Avg Revenue", "Patient Age Group Distribution",
   "Patient Gender Distribution", "Visits by Branch (Location)", "Revenue by Branch",
   "Top Payment Modes", "Appointment Status Distribution", "Revenue per Visit Distribution",
   "Zero-Payment Visits by Department", "Patient Retention Rate",
   "Average Patient Age by Department", "Doctor Workload Distribution",
   "Department Activity by Branch", "Pediatric vs Adult Patients",
   "Average Patients per Doctor", "Unique Patients by Branch"]

/-- A string starting with `p` differs from any string that does not
start with `p`. -/
theorem append_ne_of_take_ne (p d q : String)
    (h : q.data.take p.data.length ≠ p.data) : p ++ d ≠ q := by
  intro he
  apply h
  have hd : p.data ++ d.data = q.data := by rw [← String.data_append, he]
  rw [← hd]
  exact List.take_left p.data d.data

theorem gender_title_not_dt (x : String) : ("Gender Distribution in " ++ x) ∉ dtTitles := by
  intro hmem
  simp only [dtTitles, List.mem_cons, List.not_mem_nil, or_false] at hmem
  rcases hmem with h | h | h | h <;> exact append_ne_of_take_ne _ _ _ (by decide) h

theorem topdoc_title_not_dt (x : String) : ("Top Doctors in " ++ x) ∉ dtTitles := by
  intro hmem
  simp only [dtTitles, List.mem_cons, List.not_mem_nil, or_false] at hmem
  rcases hmem with h | h | h | h <;> exact append_ne_of_take_ne _ _ _ (by decide) h

/-- The C5 conclusion: the computation succeeds, none of the 21 produced
insights is datetime-dependent, and every statically-titled
non-datetime insight is present. -/
def omitsDtKeepsRest (t : RawTable) : Prop :=
  ∃ l, get_insights t = Except.ok l ∧ l.length = 21 ∧
    (∀ i ∈ l, i.title ∉ dtTitles) ∧
    (∀ s ∈ fixedOtherTitles, ∃ i ∈ l, i.title = s)

/-- C5 amended: on a nonempty table with visit-datetime and patient-id
columns in which no datetime value parses, the four datetime-dependent
insights are omitted entirely and the other 21 insights are produced. -/
theorem C5_no_datetimes (t : RawTable) (hv : t.hasVisit = true) (hp : t.hasPatientId = true)
    (hne : t.rows ≠ [])
    (hfail : ∀ r ∈ t.rows, parseDT r.visit_datetime = none) :
    omitsDtKeepsRest t := by
  have hdt : (List.map (fun r => r.visit) (load_and_clean_data t).rows).any
      (fun c => c.isSome) = false := by
    rw [List.any_eq_false]
    intro c hc
    rw [clean_rows, List.map_map] at hc
    obtain ⟨raw, hraw, rfl⟩ := List.mem_map.1 hc
    simp [Function.comp, cleanRow_visit, hv, hfail raw hraw]
  obtain ⟨r0, rest, hr⟩ := List.exists_cons_of_ne_nil hne
  obtain ⟨p, ps, hvc⟩ : ∃ p ps, value_counts (List.map (fun r => r.department)
      (load_and_clean_data t).rows) = p :: ps := by
    rcases hx : value_counts (List.map (fun r => r.department)
        (load_and_clean_data t).rows) with _ | ⟨p, ps⟩
    · exfalso
      rw [clean_rows, hr, List.map_cons, List.map_cons, cleanRow_department] at hx
      exact value_counts_ne_nil _ _ hx
    · exact ⟨p, ps, hx⟩
  unfold omitsDtKeepsRest get_insights
  simp only [clean_hasVisit, clean_hasPatientId, hv, hp, hdt, hvc, getColE, idxmaxE,
    Except.bind, reduceIte, Bool.false_eq_true, if_false, if_true]
  refine ⟨_, rfl, ?_, ?_, ?_⟩
  · simp
  · intro i hi
    fin_cases hi <;>
      first
        | exact gender_title_not_dt _
        | exact topdoc_title_not_dt _
        | simp [mkIns, dtTitles]
  · intro s hs
    fin_cases hs <;> simp [mkIns, List.exists_mem_cons_iff]

/-- A one-row table with all columns present whose only datetime token
is unparsable. -/
def W5 : RawTable :=
  { hasDoctor := true, hasDept := true, hasBranch := true, hasGender := true
    hasPayMode := true, hasStatus := true, hasPatientName := true, hasPatientId := true
    hasAge := true, hasRevenue := true, hasBaseTotal := true, hasAdvance := true
    hasVisit := true
    rows := [{ w4rowA with visit_datetime := some "not a date" }] }

/-- C5 witness: the amended statement applied to `W5`. -/
theorem C5_witness :
    W5.hasVisit = true ∧ W5.hasPatientId = true ∧ W5.rows ≠ [] ∧
    (∀ r ∈ W5.rows, parseDT r.visit_datetime = none) ∧
    omitsDtKeepsRest W5 :=
  ⟨rfl, rfl, by decide, by decide, C5_no_datetimes W5 rfl rfl (by decide) (by decide)⟩

/-- Table `W5` without a patient-id column. -/
def W5cex : RawTable :=
  { hasDoctor := true, hasDept := true, hasBranch := true, hasGender := true
    hasPayMode := true, hasStatus := true, hasPatientName := true, hasPatientId := false
    hasAge := true, hasRevenue := true, hasBaseTotal := true, hasAdvance := true
    hasVisit := true
    rows := [{ w4rowA with visit_datetime := some "not a date", patient_id := none }] }

/-- C5 counterexample: `W5cex` has a visit-datetime column in which no
value parses, yet — lacking a patient-id column — the computation fails
with a `KeyError`, so the non-datetime insights are NOT produced,
contradicting the claim as stated for every such table. -/
theorem C5_cex :
    W5cex.hasVisit = true ∧
    (∀ r ∈ W5cex.rows, parseDT r.visit_datetime = none) ∧
    get_insights W5cex = Except.error "KeyError: patient_id" :=
  ⟨rfl, by decide, by rfl⟩
